import Mathlib

/-!
Shallow embedding of the playerone-sdk safe layer (Rust) for spec
verification.  The repository contains two variants of the safe `Camera`
layer: `src/playerone-sdk/src/camera.rs` (embedded below in namespace
`CameraRs`) and an older, divergent `src/playerone-sdk/src/lib.rs`
(namespace `LibRs`), plus shared types in `src/playerone-sdk/src/types.rs`.
Driver (vendor SDK) calls are modelled by explicit oracles: each `POA...`
foreign call is represented by an `Except Error` value supplied as input,
and the sequence of foreign calls an operation issues is returned as an
explicit event trace.
-/

namespace PlayerOne

/-- Decidable equality for driver-call results. -/
instance {ε α : Type} [DecidableEq ε] [DecidableEq α] :
    DecidableEq (Except ε α) := fun x y =>
  match x, y with
  | .ok a, .ok b =>
    if h : a = b then .isTrue (congrArg _ h)
    else .isFalse (fun hh => h (Except.ok.inj hh))
  | .error a, .error b =>
    if h : a = b then .isTrue (congrArg _ h)
    else .isFalse (fun hh => h (Except.error.inj hh))
  | .ok _, .error _ => .isFalse (fun hh => Except.noConfusion hh)
  | .error _, .ok _ => .isFalse (fun hh => Except.noConfusion hh)

/-- Modelled from the spec: the crate's `Error` enum (the `types.rs` file in
the snapshot does not contain it; spec section 4.1 lists the closed error
kinds one-to-one with non-success vendor status codes). -/
inductive Error where
  | invalidIndex
  | invalidDeviceId
  | invalidConfig
  | invalidArgument
  | notOpened
  | deviceNotFound
  | outOfBounds
  | exposureFailed
  | timeout
  | bufferTooSmall
  | exposing
  | nullPointer
  | configNotWritable
  | configNotReadable
  | accessDenied
  | operationFailed
  | memoryAllocationFailed
deriving DecidableEq, Repr

/-- Vendor image-format enumeration (`_POAImgFormat` in the sys bindings),
including the `POA_END` sentinel. -/
inductive POAImgFormat where
  | POA_RAW8
  | POA_RAW16
  | POA_RGB24
  | POA_MONO8
  | POA_END
deriving DecidableEq, Repr

/-- Safe-layer image format (`ImgFormat` in `types.rs`, called `ImageFormat`
by `camera.rs`): the four-value closed variant without the sentinel. -/
inductive ImageFormat where
  | RAW8
  | RAW16
  | RGB24
  | MONO8
deriving DecidableEq, Repr

/-- Modelled from the spec: `bytes_per_pixel` (the method is used by
`camera.rs::create_image_buffer` but its definition is not in the snapshot;
spec section 4.5 fixes RAW8:1, RAW16:2, RGB24:3, MONO8:1). -/
def ImageFormat.bytes_per_pixel : ImageFormat → Nat
  | .RAW8 => 1
  | .RAW16 => 2
  | .RGB24 => 3
  | .MONO8 => 1

/-- Vendor camera-state enumeration (`POACameraState`), as read by
`lib.rs::set_roi`. -/
inductive CameraState where
  | STATE_CLOSED
  | STATE_OPENED
  | STATE_EXPOSING
deriving DecidableEq, Repr

/-- Observable actions of a safe-layer operation: one constructor per
foreign driver call issued (arguments kept where the claims mention them),
plus `consumerCall` marking an invocation of the user callback with the
current buffer contents. -/
inductive Event where
  | openCamera
  | initCamera
  | closeCamera
  | startExposure (singleFrame : Bool)
  | stopExposure
  | getImageData (timeoutMs : Int)
  | getCameraState
  | setImageSize (w h : Int)
  | setImageStartPos (x y : Int)
  | getImageSize
  | getImageStartPos
  | setImageBin (b : Int)
  | getImageBin
  | getImageFormat
  | setImageFormat
  | getCameraCount
  | getCameraProperties (i : Nat)
  | getConfigsCount
  | getConfigAttributes (i : Nat)
  | consumerCall (v : Nat)
deriving DecidableEq, Repr

/-- Outcome of an operation that can abort the process: either a value or a
Rust panic (an uncatchable fault, raised by `safe_error` and friends). -/
inductive POutcome (α : Type) where
  | ok (a : α)
  | panicked
deriving DecidableEq, Repr

/-- Result of a fuel-bounded run of the streaming loop: a Rust panic, fuel
exhaustion (the Rust loop would still be running), or a returned
`POAResult`. -/
inductive RunResult where
  | panicked
  | diverged
  | returned (r : Except Error Unit)
deriving DecidableEq, Repr

/-- Test whether a driver status is a non-success code. -/
def isErr {α : Type} : Except Error α → Bool
  | .error _ => true
  | .ok _ => false

/-- Region Of Interest (`ROI` in both `camera.rs` and `lib.rs`); fields are
`i32` in the source, modelled as `Int`. -/
structure ROI where
  start_x : Int
  start_y : Int
  width : Int
  height : Int
deriving DecidableEq, Repr

/-- The slice of `CameraProperties` (`types.rs`) that the locally validated
operations consult: `max_width`/`max_height` are `u32`, `bins` is the
supported-binning list. -/
structure Properties where
  max_width : Nat
  max_height : Nat
  bins : List Nat
deriving DecidableEq, Repr

/-- The slice of the vendor `POACameraProperties` struct that enumeration
reads (`cameraID`; the remaining decoded fields are irrelevant to the
claims and carried opaquely as `payload`). -/
structure CamProps where
  cameraID : Int
  payload : Nat
deriving DecidableEq, Repr

/-- `CameraDescription` (`camera.rs`): id plus decoded properties. -/
structure CameraDescription where
  camera_id : Int
  properties : CamProps
deriving DecidableEq, Repr

/-- Explicit-close flag of a `Camera` value (`closed` field in both
variants). -/
structure CamState where
  closed : Bool
deriving DecidableEq, Repr

/-- The `i32::MAX` bound checked by `camera.rs::stream` on the millisecond
timeout. -/
def i32Max : Nat := 2 ^ 31 - 1

/-- `ImgFormat::from(_POAImgFormat)` in `types.rs`: the `POA_END` sentinel
hits `unreachable!` (a panic); the four real formats convert directly. -/
def ImageFormat.fromPOA : POAImgFormat → POutcome ImageFormat
  | .POA_RAW8 => .ok .RAW8
  | .POA_RAW16 => .ok .RAW16
  | .POA_RGB24 => .ok .RGB24
  | .POA_MONO8 => .ok .MONO8
  | .POA_END => .panicked

/-- `safe_error` in `camera.rs`: returns on `POA_OK`, panics on any other
driver status. -/
def safe_error : Except Error Unit → POutcome Unit
  | .ok _ => .ok ()
  | .error _ => .panicked

/-- Predicate picking out exposure-start driver calls in a trace. -/
def isStartExposure : Event → Bool
  | .startExposure _ => true
  | _ => false

/-- Predicate picking out exposure-stop driver calls in a trace. -/
def isStopExposure : Event → Bool
  | .stopExposure => true
  | _ => false

/-- Predicate picking out driver-close calls in a trace. -/
def isCloseCamera : Event → Bool
  | .closeCamera => true
  | _ => false

/-- Predicate picking out camera-state queries in a trace. -/
def isGetCameraState : Event → Bool
  | .getCameraState => true
  | _ => false

/-- Predicate picking out consumer invocations in a trace. -/
def isConsumerCall : Event → Bool
  | .consumerCall _ => true
  | _ => false

/-- The buffer contents handed to the consumer, in invocation order. -/
def consumedValues (evs : List Event) : List Nat :=
  evs.filterMap fun e =>
    match e with
    | .consumerCall v => some v
    | _ => none

/-- `ConfigKind` (`types.rs`): the closed 31-slot enumeration.  The vendor
`POAConfig` enum is in total renaming bijection with it via
`From<POAConfig> for ConfigKind` (`types.rs` lines 559 to 597), so the
vendor `configID` field is modelled directly by this type. -/
inductive ConfigKind where
  | Exposure
  | Gain
  | HardwareBin
  | Temperature
  | WbR
  | WbG
  | WbB
  | Offset
  | AutoexpoMaxGain
  | AutoexpoMaxExposure
  | AutoexpoBrightness
  | GuideNorth
  | GuideSouth
  | GuideEast
  | GuideWest
  | Egain
  | CoolerPower
  | TargetTemp
  | Cooler
  | Heater
  | HeaterPower
  | FanPower
  | FlipNone
  | FlipHori
  | FlipVert
  | FlipBoth
  | FrameLimit
  | Hqi
  | UsbBandwidthLimit
  | PixelBinSum
  | MonoBin
deriving DecidableEq, Repr

/-- Vendor value-type tag (`_POAValueType` in the sys bindings). -/
inductive POAValueType where
  | VAL_INT
  | VAL_FLOAT
  | VAL_BOOL
deriving DecidableEq, Repr

/-- The statically known value type of each slot, read off the field types
of `AllConfigAttributes` (`types.rs` lines 355 to 387): this is the `T` of
the `ConfigAttribute<T>` each match arm of the conversion assigns, whose
`T::from_attribute` panics when the attribute's declared tag differs. -/
def expectedType : ConfigKind → POAValueType
  | .Exposure => .VAL_INT
  | .Gain => .VAL_FLOAT
  | .HardwareBin => .VAL_INT
  | .Temperature => .VAL_FLOAT
  | .WbR => .VAL_FLOAT
  | .WbG => .VAL_FLOAT
  | .WbB => .VAL_FLOAT
  | .Offset => .VAL_INT
  | .AutoexpoMaxGain => .VAL_FLOAT
  | .AutoexpoMaxExposure => .VAL_INT
  | .AutoexpoBrightness => .VAL_INT
  | .GuideNorth => .VAL_INT
  | .GuideSouth => .VAL_INT
  | .GuideEast => .VAL_INT
  | .GuideWest => .VAL_INT
  | .Egain => .VAL_FLOAT
  | .CoolerPower => .VAL_INT
  | .TargetTemp => .VAL_INT
  | .Cooler => .VAL_BOOL
  | .Heater => .VAL_BOOL
  | .HeaterPower => .VAL_INT
  | .FanPower => .VAL_INT
  | .FlipNone => .VAL_BOOL
  | .FlipHori => .VAL_BOOL
  | .FlipVert => .VAL_BOOL
  | .FlipBoth => .VAL_BOOL
  | .FrameLimit => .VAL_INT
  | .Hqi => .VAL_BOOL
  | .UsbBandwidthLimit => .VAL_INT
  | .PixelBinSum => .VAL_BOOL
  | .MonoBin => .VAL_BOOL

/-- The slice of the vendor `POAConfigAttributes` struct the conversion's
panic logic consults (`configID` and `valueType`); the capability flags,
the min/max/default value union and the name/description byte buffers are
never consulted by the panic structure and are carried opaquely as
`payload`. -/
structure POAConfigAttributes where
  configID : ConfigKind
  valueType : POAValueType
  payload : Nat
deriving DecidableEq, Repr

/-- `ConfigAttribute<T>` (`types.rs`): the decoded slot.  The typed
min/max/default bounds and the decoded strings are collapsed into the
opaque `payload` carried over from the raw attribute. -/
structure ConfigAttribute where
  kind : ConfigKind
  payload : Nat
deriving DecidableEq, Repr

/-- `ConfigAttribute::<T>::from(POAConfigAttributes)` (`types.rs` lines 263
to 287) with `T` the statically known type of the slot being assigned:
`T::from_attribute` (`types.rs` lines 203 to 261) panics when the
attribute's declared `valueType` contradicts that `T`. -/
def ConfigAttribute.fromPOA (v : POAConfigAttributes) :
    POutcome ConfigAttribute :=
  if v.valueType = expectedType v.configID then
    .ok { kind := v.configID, payload := v.payload }
  else
    .panicked

/-- The 31 slots of `AllConfigAttributes`, in the struct's field order ---
the order of the final `.expect("... is not found")` checks. -/
def allKinds : List ConfigKind :=
  [.Exposure, .Gain, .HardwareBin, .Temperature, .WbR, .WbG, .WbB, .Offset,
   .AutoexpoMaxGain, .AutoexpoMaxExposure, .AutoexpoBrightness, .GuideNorth,
   .GuideSouth, .GuideEast, .GuideWest, .Egain, .CoolerPower, .TargetTemp,
   .Cooler, .Heater, .HeaterPower, .FanPower, .FlipNone, .FlipHori,
   .FlipVert, .FlipBoth, .FrameLimit, .Hqi, .UsbBandwidthLimit,
   .PixelBinSum, .MonoBin]

/-- The per-slot option state after the conversion loop has processed a
list of attributes (panic-free prefix): each attribute overwrites its
slot, later occurrences winning, exactly like the loop's
`slot = Some(ConfigAttribute::from(value))` assignments. -/
def slotsAfter : List POAConfigAttributes →
    (ConfigKind → Option ConfigAttribute) → ConfigKind → Option ConfigAttribute
  | [], acc => acc
  | a :: rest, acc =>
    slotsAfter rest
      (fun k => if k = a.configID then
          some { kind := a.configID, payload := a.payload }
        else acc k)

/-- The conversion loop of `AllConfigAttributes::from` (`types.rs` lines
423 to 520): process the attributes in order, converting each via
`ConfigAttribute::from` (which panics on a value-type-tag mismatch) and
storing it in its slot. -/
def runConv : List POAConfigAttributes →
    (ConfigKind → Option ConfigAttribute) →
    POutcome (ConfigKind → Option ConfigAttribute)
  | [], acc => .ok acc
  | a :: rest, acc =>
    match ConfigAttribute.fromPOA a with
    | .panicked => .panicked
    | .ok ca =>
      runConv rest (fun k => if k = a.configID then some ca else acc k)

/-- `AllConfigAttributes::from(Vec<POAConfigAttributes>)` (`types.rs` lines
389 to 557): run the conversion loop from empty slots, then build the
struct, where each of the 31 `.expect("... is not found")` calls panics if
its slot is still absent.  The resulting struct is represented by its
(everywhere-populated) per-kind slot map.  (Named `from` in the source;
`from` is a Lean keyword.) -/
def AllConfigAttributes.fromAttrs (values : List POAConfigAttributes) :
    POutcome (ConfigKind → Option ConfigAttribute) :=
  match runConv values (fun _ => none) with
  | .panicked => .panicked
  | .ok slots =>
    if allKinds.all (fun k => (slots k).isSome) then .ok slots
    else .panicked

end PlayerOne

namespace PlayerOne.CameraRs

open PlayerOne

/-- Driver oracle for the `safe_error`-based getters of `camera.rs`: the
value is what the driver writes through the out-pointer; `.error` means the
call returned a non-success status. -/
structure Driver where
  getImageStartPos : Except Error (Int × Int)
  getImageSize : Except Error (Int × Int)
  getImageBin : Except Error Int
  getImageFormat : Except Error POAImgFormat
deriving DecidableEq, Repr

/-- `camera.rs::Camera::roi`: two `safe_error`-wrapped driver calls
(`POAGetImageStartPos` then `POAGetImageSize`); any non-success status
panics. -/
def roi (d : Driver) : POutcome ROI × List Event :=
  match d.getImageStartPos with
  | .error _ => (.panicked, [.getImageStartPos])
  | .ok (sx, sy) =>
    match d.getImageSize with
    | .error _ => (.panicked, [.getImageStartPos, .getImageSize])
    | .ok (w, h) =>
      (.ok ⟨sx, sy, w, h⟩, [.getImageStartPos, .getImageSize])

/-- `camera.rs::Camera::image_size`: one `safe_error`-wrapped
`POAGetImageSize` call. -/
def image_size (d : Driver) : POutcome (Int × Int) × List Event :=
  match d.getImageSize with
  | .error _ => (.panicked, [.getImageSize])
  | .ok wh => (.ok wh, [.getImageSize])

/-- `camera.rs::Camera::bin`: one `safe_error`-wrapped `POAGetImageBin`
call; the result is cast `as u32`. -/
def bin (d : Driver) : POutcome Int × List Event :=
  match d.getImageBin with
  | .error _ => (.panicked, [.getImageBin])
  | .ok b => (.ok b, [.getImageBin])

/-- `camera.rs::Camera::image_format`: one `safe_error`-wrapped
`POAGetImageFormat` call, then the `ImgFormat` conversion (which panics on
the `POA_END` sentinel).  The surrounding `POAResult` is always `Ok`, so it
is collapsed away here; the only failure channel is the panic. -/
def image_format (d : Driver) : POutcome ImageFormat × List Event :=
  match d.getImageFormat with
  | .error _ => (.panicked, [.getImageFormat])
  | .ok f => (ImageFormat.fromPOA f, [.getImageFormat])

/-- The `as usize` cast applied to the `i32` width/height in
`create_image_buffer` (two's-complement value mod 2^64). -/
def asUsize (x : Int) : Nat := (x % (2 ^ 64 : Int)).toNat

/-- `camera.rs::Camera::create_image_buffer`: reads the image size and
format (panicking getters) and allocates a zeroed buffer of
`w * h * bytes_per_pixel`. -/
def create_image_buffer (d : Driver) : POutcome (List Nat) × List Event :=
  match image_size d with
  | (.panicked, evs) => (.panicked, evs)
  | (.ok (w, h), evs) =>
    match image_format d with
    | (.panicked, evs2) => (.panicked, evs ++ evs2)
    | (.ok fmt, evs2) =>
      (.ok (List.replicate (asUsize w * asUsize h * fmt.bytes_per_pixel) 0),
        evs ++ evs2)

/-- `camera.rs::Camera::image_start_pos`: one `safe_error`-wrapped
`POAGetImageStartPos` call; the surrounding `POAResult` is always `Ok`,
so the only failure channel is the panic. -/
def image_start_pos (d : Driver) : POutcome (Int × Int) × List Event :=
  match d.getImageStartPos with
  | .error _ => (.panicked, [.getImageStartPos])
  | .ok p => (.ok p, [.getImageStartPos])

/-- The attribute-collecting loop of `camera.rs::config_bounds`: one
`safe_error`-wrapped `POAGetConfigAttributes` per index in ascending
order, pushing each decoded struct; any non-success status panics.
`fuel` is the remaining iteration count, `i` the current index. -/
def configAttrLoop (attrRes : Nat → Except Error POAConfigAttributes) :
    Nat → Nat → POutcome (List POAConfigAttributes) × List Event
  | 0, _ => (.ok [], [])
  | n + 1, i =>
    match attrRes i with
    | .error _ => (.panicked, [.getConfigAttributes i])
    | .ok a =>
      match configAttrLoop attrRes n (i + 1) with
      | (.panicked, evs) => (.panicked, .getConfigAttributes i :: evs)
      | (.ok rest, evs) => (.ok (a :: rest), .getConfigAttributes i :: evs)

/-- `camera.rs::Camera::config_bounds`: a `safe_error`-wrapped
`POAGetConfigsCount`, then the per-index attribute loop, then the
`AllConfigBounds::from` conversion (`AllConfigAttributes.fromAttrs` here),
which itself can panic on a value-type-tag mismatch or a missing slot. -/
def config_bounds (countRes : Except Error Nat)
    (attrRes : Nat → Except Error POAConfigAttributes) :
    POutcome (ConfigKind → Option ConfigAttribute) × List Event :=
  match countRes with
  | .error _ => (.panicked, [.getConfigsCount])
  | .ok n =>
    match configAttrLoop attrRes n 0 with
    | (.panicked, evs) => (.panicked, .getConfigsCount :: evs)
    | (.ok attrs, evs) =>
      (AllConfigAttributes.fromAttrs attrs, .getConfigsCount :: evs)

/-- Driver oracle for `camera.rs::Camera::open` (and `LibRs.open`). -/
structure OpenDriver where
  openCamera : Except Error Unit
  initCamera : Except Error Unit
deriving DecidableEq, Repr

/-- `camera.rs::Camera::open`: `POAOpenCamera`, then `POAInitCamera`; on an
initialize failure `POACloseCamera` is issued before the error is
returned.  (Named `open` in the source; `open` is a Lean keyword.) -/
def openCam (d : OpenDriver) : Except Error Unit × List Event :=
  match d.openCamera with
  | .error e => (.error e, [.openCamera])
  | .ok _ =>
    match d.initCamera with
    | .error e => (.error e, [.openCamera, .initCamera, .closeCamera])
    | .ok _ => (.ok (), [.openCamera, .initCamera])

/-- `camera.rs::Camera::close`: sets `closed = true` first (the receiver is
consumed), then issues `POACloseCamera` and maps its status. -/
def close (_s : CamState) (closeRes : Except Error Unit) :
    Except Error Unit × CamState × List Event :=
  let s2 : CamState := { closed := true }
  match closeRes with
  | .error e => (.error e, s2, [.closeCamera])
  | .ok _ => (.ok (), s2, [.closeCamera])

/-- `Drop for Camera` in `camera.rs`: issues `POACloseCamera` (result
discarded) only when the handle was never explicitly closed. -/
def drop (s : CamState) : List Event :=
  if s.closed then [] else [.closeCamera]

/-- Driver-close calls over a handle's post-open lifetime: either the
handle is dropped directly, or explicitly closed (consuming it, which runs
`Drop` on the already-marked state) --- the only orders Rust permits. -/
def lifetimeCloseEvents (explicitClose : Bool) (closeRes : Except Error Unit) :
    List Event :=
  if explicitClose then
    (close { closed := false } closeRes).2.2 ++
      drop (close { closed := false } closeRes).2.1
  else
    drop { closed := false }

/-- `camera.rs::Camera::set_image_size`: local `u32` bound check against
the device properties before the driver call. -/
def set_image_size (p : Properties) (w h : Nat)
    (setRes : Except Error Unit) : Except Error Unit × List Event :=
  if w > p.max_width ∨ h > p.max_height then
    (.error .outOfBounds, [])
  else
    match setRes with
    | .error e => (.error e, [.setImageSize (w : Int) (h : Int)])
    | .ok _ => (.ok (), [.setImageSize (w : Int) (h : Int)])

/-- `camera.rs::Camera::set_bin`: local membership check in the supported
bins before the driver call. -/
def set_bin (p : Properties) (b : Nat)
    (setRes : Except Error Unit) : Except Error Unit × List Event :=
  if ¬ p.bins.contains b then
    (.error .outOfBounds, [])
  else
    match setRes with
    | .error e => (.error e, [.setImageBin (b : Int)])
    | .ok _ => (.ok (), [.setImageBin (b : Int)])

/-- `camera.rs::Camera::set_roi`: applies width/height then start position
as two driver calls; no camera-state query and no exposure stop (unlike the
`lib.rs` variant). -/
def set_roi (_state : CameraState) (r : ROI)
    (sizeRes posRes : Except Error Unit) : Except Error Unit × List Event :=
  match sizeRes with
  | .error e => (.error e, [.setImageSize r.width r.height])
  | .ok _ =>
    match posRes with
    | .error e =>
      (.error e, [.setImageSize r.width r.height,
                  .setImageStartPos r.start_x r.start_y])
    | .ok _ =>
      (.ok (), [.setImageSize r.width r.height,
                .setImageStartPos r.start_x r.start_y])

/-- `camera.rs::Camera::capture`: start a single exposure
(`POAStartExposure` with the single-frame flag), one blocking
`get_image_data` into the caller's buffer, then `stop_exposure` --- each
step propagating its error with `?`. -/
def capture (startRes getRes stopRes : Except Error Unit)
    (timeout : Option Int) : Except Error Unit × List Event :=
  match startRes with
  | .error e => (.error e, [.startExposure true])
  | .ok _ =>
    match getRes with
    | .error e =>
      (.error e, [.startExposure true, .getImageData (timeout.getD (-1))])
    | .ok _ =>
      match stopRes with
      | .error e =>
        (.error e, [.startExposure true, .getImageData (timeout.getD (-1)),
                    .stopExposure])
      | .ok _ =>
        (.ok (), [.startExposure true, .getImageData (timeout.getD (-1)),
                  .stopExposure])

/-- `camera.rs::Camera::all_cameras`: `POAGetCameraCount`, then one
`POAGetCameraProperties` per index in ascending order, skipping indices
whose query fails (`continue`) and pushing a description otherwise. -/
def all_cameras (count : Nat) (prop : Nat → Except Error CamProps) :
    List CameraDescription × List Event :=
  ((List.range count).foldl
      (fun acc i =>
        match prop i with
        | .error _ => acc
        | .ok p => acc ++ [⟨p.cameraID, p⟩])
      [],
   .getCameraCount :: (List.range count).map .getCameraProperties)

/-- Driver oracle for `camera.rs::Camera::stream`: buffer-sizing getters,
the exposure start/stop statuses, and the result of the i-th
`POAGetImageData` call (on success, the frame value the driver writes into
the shared buffer). -/
structure StreamDriver where
  getImageSize : Except Error (Int × Int)
  getImageFormat : Except Error POAImgFormat
  startExposure : Except Error Unit
  getImageData : Nat → Except Error Nat
  stopExposure : Except Error Unit

/-- The loop body of `stream`: block for the next frame; on a retrieval
error, stop the exposure (result discarded) and return the error; otherwise
invoke the consumer with the freshly filled buffer and continue or break.
`fuel` bounds the number of iterations modelled; `i` counts iterations. -/
def streamLoop (d : StreamDriver) (cb : Nat → Nat → Bool) (t : Int) :
    Nat → Nat → RunResult × List Event
  | 0, _ => (.diverged, [])
  | fuel + 1, i =>
    match d.getImageData i with
    | .error e => (.returned (.error e), [.getImageData t, .stopExposure])
    | .ok v =>
      if cb i v then
        let rest := streamLoop d cb t fuel (i + 1)
        (rest.1, .getImageData t :: .consumerCall v :: rest.2)
      else
        (.returned (.ok ()), [.getImageData t, .consumerCall v])

/-- The trace produced by the streaming loop when the first `N` retrievals
succeed (delivering frames `f i`, each handed to the consumer) and the next
retrieval fails: `N` retrieval/consumer pairs, then the failing retrieval
and the best-effort exposure stop. -/
def loopTrace (t : Int) (f : Nat → Nat) : Nat → Nat → List Event
  | 0, _ => [.getImageData t, .stopExposure]
  | n + 1, i => .getImageData t :: .consumerCall (f i) :: loopTrace t f n (i + 1)

/-- The trace produced by the streaming loop when the first `m + 1`
retrievals succeed and the consumer signals stop on the last of them:
`m + 1` retrieval/consumer pairs and nothing else (no exposure stop). -/
def loopTraceStop (t : Int) (f : Nat → Nat) : Nat → Nat → List Event
  | 0, i => [.getImageData t, .consumerCall (f i)]
  | m + 1, i => .getImageData t :: .consumerCall (f i) :: loopTraceStop t f m (i + 1)

/-- The effective timeout passed to each `POAGetImageData` call inside the
loop: `timeout.map(|t| t as i32).unwrap_or(-1)`. -/
def timeoutArg : Option Nat → Int
  | none => -1
  | some t => (t : Int)

/-- `camera.rs::Camera::stream`: validate the timeout against `i32::MAX`
(no driver call on violation), allocate the reusable buffer
(`create_image_buffer`, whose getters panic on driver errors), start the
continuous exposure once, then run the loop. -/
def stream (timeout : Option Nat) (d : StreamDriver) (cb : Nat → Nat → Bool)
    (fuel : Nat) : RunResult × List Event :=
  if (timeout.map (fun t => decide (t > i32Max))).getD false then
    (.returned (.error .outOfBounds), [])
  else
    match d.getImageSize with
    | .error _ => (.panicked, [.getImageSize])
    | .ok _ =>
      match d.getImageFormat with
      | .error _ => (.panicked, [.getImageSize, .getImageFormat])
      | .ok f =>
        match ImageFormat.fromPOA f with
        | .panicked => (.panicked, [.getImageSize, .getImageFormat])
        | .ok _ =>
          match d.startExposure with
          | .error e =>
            (.returned (.error e),
             [.getImageSize, .getImageFormat, .startExposure false])
          | .ok _ =>
            let body := streamLoop d cb (timeoutArg timeout) fuel 0
            (body.1,
             [.getImageSize, .getImageFormat, .startExposure false] ++ body.2)

/-- One step of the device exposure-state fold: a successful start call
enters the exposing state, a successful stop call leaves it, any other call
(or a failed start/stop) leaves the state unchanged. -/
def expStep (startRes stopRes : Except Error Unit) (s : Bool) : Event → Bool
  | .startExposure _ => if isErr startRes then s else true
  | .stopExposure => if isErr stopRes then s else false
  | _ => s

/-- Whether the device is left mid-exposure by a trace: a fold over the
issued calls, entering the exposing state on a successful start and leaving
it on a successful stop (stops are best-effort, so a failed stop leaves the
state unchanged). -/
def exposingAfter (startRes stopRes : Except Error Unit) (evs : List Event) :
    Bool :=
  evs.foldl (expStep startRes stopRes) false

end PlayerOne.CameraRs

namespace PlayerOne.LibRs

open PlayerOne

/-- `lib.rs::Camera::open`: `POAOpenCamera` then `POAInitCamera`; an
initialize failure is returned directly, with no driver close.  (Named
`open` in the source; `open` is a Lean keyword.) -/
def openCam (d : CameraRs.OpenDriver) : Except Error Unit × List Event :=
  match d.openCamera with
  | .error e => (.error e, [.openCamera])
  | .ok _ =>
    match d.initCamera with
    | .error e => (.error e, [.openCamera, .initCamera])
    | .ok _ => (.ok (), [.openCamera, .initCamera])

/-- `lib.rs::Camera::close`: early-returns `Ok` with no driver call when
already closed; otherwise issues `POACloseCamera` and marks the handle
closed only on success. -/
def close (s : CamState) (closeRes : Except Error Unit) :
    Except Error Unit × CamState × List Event :=
  if s.closed then
    (.ok (), s, [])
  else
    match closeRes with
    | .error e => (.error e, s, [.closeCamera])
    | .ok _ => (.ok (), { closed := true }, [.closeCamera])

/-- Driver oracle for `lib.rs::Camera::set_roi`. -/
structure RoiDriver where
  getCameraState : Except Error CameraState
  stopExposure : Except Error Unit
  setImageSize : Except Error Unit
  setImageStartPos : Except Error Unit
deriving DecidableEq, Repr

/-- The state value observed by `lib.rs::set_roi`: the out-variable is
initialized to `STATE_CLOSED` and the query's own status is discarded, so a
failed query leaves `STATE_CLOSED` in place. -/
def observedState (d : RoiDriver) : CameraState :=
  match d.getCameraState with
  | .ok s => s
  | .error _ => .STATE_CLOSED

/-- The calls `lib.rs::set_roi` issues before touching the geometry: the
state query, plus a best-effort `POAStopExposure` when the device reports
`STATE_EXPOSING`. -/
def set_roi_pre (d : RoiDriver) : List Event :=
  if observedState d = .STATE_EXPOSING then
    [.getCameraState, .stopExposure]
  else
    [.getCameraState]

/-- `lib.rs::Camera::set_roi`: query the camera state (status ignored);
if it reports `STATE_EXPOSING`, issue `POAStopExposure` (result ignored);
then apply width/height and start position as two sequential checked driver
calls. -/
def set_roi (d : RoiDriver) (r : ROI) : Except Error Unit × List Event :=
  let pre : List Event := set_roi_pre d
  match d.setImageSize with
  | .error e => (.error e, pre ++ [.setImageSize r.width r.height])
  | .ok _ =>
    match d.setImageStartPos with
    | .error e =>
      (.error e, pre ++ [.setImageSize r.width r.height,
                         .setImageStartPos r.start_x r.start_y])
    | .ok _ =>
      (.ok (), pre ++ [.setImageSize r.width r.height,
                       .setImageStartPos r.start_x r.start_y])

/-- `lib.rs::Camera::all_cameras`: identical enumeration logic to the
`camera.rs` variant (count query, per-index query, skip on error). -/
def all_cameras (count : Nat) (prop : Nat → Except Error CamProps) :
    List CameraDescription × List Event :=
  CameraRs.all_cameras count prop

end PlayerOne.LibRs

namespace PlayerOne

/-! ### Helper lemmas -/

/-- The enumeration fold pushes exactly the successfully decoded indices,
in order. -/
theorem foldl_push_filterMap (prop : Nat → Except Error CamProps)
    (l : List Nat) (acc : List CameraDescription) :
    l.foldl
        (fun acc i =>
          match prop i with
          | .error _ => acc
          | .ok p => acc ++ [⟨p.cameraID, p⟩])
        acc
      = acc ++ l.filterMap (fun i =>
          match prop i with
          | .ok p => some ⟨p.cameraID, p⟩
          | .error _ => none) := by
  induction l generalizing acc with
  | nil => simp
  | cons x xs ih =>
    cases hx : prop x <;>
      simp [List.foldl_cons, List.filterMap_cons, hx, ih, List.append_assoc]

/-! ### C9 -/

/-- C9: `all_cameras` queries the device count and then each index's
property struct in ascending index order; every index whose query fails is
skipped, so the returned list holds exactly the descriptors of the
successfully queried indices in their relative index order; in particular 3
reported devices with index 1 failing yield the two descriptors of indices
0 and 2, in order. -/
theorem all_cameras_skips_failing_indices
    (count : Nat) (prop : Nat → Except Error CamProps) :
    (CameraRs.all_cameras count prop).1
        = (List.range count).filterMap (fun i =>
            match prop i with
            | .ok p => some ⟨p.cameraID, p⟩
            | .error _ => none)
      ∧ (CameraRs.all_cameras count prop).2
        = .getCameraCount :: (List.range count).map .getCameraProperties
      ∧ (CameraRs.all_cameras 3 (fun i =>
            if i = 1 then .error .deviceNotFound
            else .ok ⟨(i : Int), i⟩)).1
        = [⟨0, ⟨0, 0⟩⟩, ⟨2, ⟨2, 2⟩⟩] := by
  refine ⟨?_, rfl, by decide⟩
  simpa using foldl_push_filterMap prop (List.range count) []

/-! ### C7 -/

/-- C7: the `lib.rs` close is idempotent: closing an already-closed handle
is a no-op success issuing no driver call and leaving the state unchanged,
so whenever a close succeeds, a second close (under any driver behaviour)
succeeds with no driver call. -/
theorem close_idempotent (s : CamState) (d d2 : Except Error Unit) :
    (s.closed = true → LibRs.close s d = (.ok (), s, []))
      ∧ (∀ s2 evs, LibRs.close s d = (.ok (), s2, evs) →
          LibRs.close s2 d2 = (.ok (), s2, [])) := by
  constructor
  · intro h
    simp [LibRs.close, h]
  · intro s2 evs h
    rcases s with ⟨b⟩
    cases b <;> cases d <;> simp [LibRs.close] at h <;>
      obtain ⟨rfl, rfl⟩ := h <;> simp [LibRs.close]

/-- Witness for C7 at a concrete closed handle and a concrete successful
first close. -/
theorem close_idempotent_witness :
    LibRs.close { closed := true } (.error .operationFailed)
        = (.ok (), { closed := true }, [])
      ∧ LibRs.close { closed := false } (.ok ())
        = (.ok (), { closed := true }, [.closeCamera])
      ∧ LibRs.close { closed := true } (.error .operationFailed)
        = (.ok (), { closed := true }, []) := by
  refine ⟨(close_idempotent { closed := true } (.error .operationFailed)
            (.error .operationFailed)).1 rfl, rfl, ?_⟩
  exact (close_idempotent { closed := false } (.ok ())
          (.error .operationFailed)).2 { closed := true } [.closeCamera] rfl

/-! ### C10 -/

/-- C10: the driver-level close is issued at most once per handle: a
successful open issues no driver close; the explicit close marks the handle
closed before the driver call (so the post-state is closed even when the
driver call fails) and issues exactly one driver close; the destructor
closes only a never-closed handle; and over either possible post-open
lifetime (drop, or explicit close followed by the destructor) exactly one
driver close is issued. -/
theorem driver_close_at_most_once
    (d : Except Error Unit) (explicitClose : Bool)
    (odr : CameraRs.OpenDriver) :
    ((CameraRs.close { closed := false } d).2.1.closed = true)
      ∧ (CameraRs.drop { closed := true } = [])
      ∧ ((CameraRs.lifetimeCloseEvents explicitClose d).countP isCloseCamera
          = 1)
      ∧ (odr.openCamera = .ok () → odr.initCamera = .ok () →
          (CameraRs.openCam odr).2.countP isCloseCamera = 0) := by
  refine ⟨?_, rfl, ?_, ?_⟩
  · cases d <;> rfl
  · cases explicitClose <;> cases d <;>
      simp [CameraRs.lifetimeCloseEvents, CameraRs.close, CameraRs.drop,
        isCloseCamera]
  · intro h1 h2
    simp [CameraRs.openCam, h1, h2, isCloseCamera]

/-- Witness for C10 at a concrete failing driver close and a concrete
successful open. -/
theorem driver_close_at_most_once_witness :
    ((CameraRs.close { closed := false } (.error .operationFailed)).2.1.closed
        = true)
      ∧ ((CameraRs.lifetimeCloseEvents true
            (.error .operationFailed)).countP isCloseCamera = 1)
      ∧ ((CameraRs.openCam { openCamera := .ok (), initCamera := .ok () }).2.countP
          isCloseCamera = 0) :=
  ⟨(driver_close_at_most_once (.error .operationFailed) true
      { openCamera := .ok (), initCamera := .ok () }).1,
   (driver_close_at_most_once (.error .operationFailed) true
      { openCamera := .ok (), initCamera := .ok () }).2.2.1,
   (driver_close_at_most_once (.error .operationFailed) true
      { openCamera := .ok (), initCamera := .ok () }).2.2.2 rfl rfl⟩

/-! ### C3 -/

/-- C3 counterexample: the claim cites `lib.rs::Camera::open` as well, but
that variant does not close the device when initialize fails after a
successful open: at the concrete driver behaviour (open succeeds,
initialize reports OperationFailed) it returns the error having issued only
the open and initialize calls, no driver close, leaving the device in the
driver-open state. -/
theorem lib_open_no_close_on_init_failure :
    LibRs.openCam { openCamera := .ok (), initCamera := .error .operationFailed }
        = (.error .operationFailed, [.openCamera, .initCamera])
      ∧ (LibRs.openCam
            { openCamera := .ok (),
              initCamera := .error .operationFailed }).2.countP isCloseCamera
        = 0 :=
  ⟨rfl, rfl⟩

/-- C3 (amended to the `camera.rs` variant): `open` issues the driver open
call then the driver initialize call; an open failure is returned directly;
an initialize failure after a successful open issues the driver-level close
before the error is returned. -/
theorem open_closes_on_init_failure
    (d : CameraRs.OpenDriver) (e : Error) :
    (d.openCamera = .error e →
        CameraRs.openCam d = (.error e, [.openCamera]))
      ∧ (d.openCamera = .ok () → d.initCamera = .error e →
          CameraRs.openCam d
            = (.error e, [.openCamera, .initCamera, .closeCamera]))
      ∧ (d.openCamera = .ok () → d.initCamera = .ok () →
          CameraRs.openCam d = (.ok (), [.openCamera, .initCamera])) := by
  refine ⟨?_, ?_, ?_⟩
  · intro h1
    simp [CameraRs.openCam, h1]
  · intro h1 h2
    simp [CameraRs.openCam, h1, h2]
  · intro h1 h2
    simp [CameraRs.openCam, h1, h2]

/-- Witness for C3 at the three concrete driver behaviours. -/
theorem open_closes_on_init_failure_witness :
    CameraRs.openCam
        { openCamera := .error .deviceNotFound, initCamera := .ok () }
        = (.error .deviceNotFound, [.openCamera])
      ∧ CameraRs.openCam
          { openCamera := .ok (), initCamera := .error .deviceNotFound }
          = (.error .deviceNotFound, [.openCamera, .initCamera, .closeCamera])
      ∧ CameraRs.openCam { openCamera := .ok (), initCamera := .ok () }
          = (.ok (), [.openCamera, .initCamera]) :=
  ⟨(open_closes_on_init_failure
      { openCamera := .error .deviceNotFound, initCamera := .ok () }
      .deviceNotFound).1 rfl,
   (open_closes_on_init_failure
      { openCamera := .ok (), initCamera := .error .deviceNotFound }
      .deviceNotFound).2.1 rfl rfl,
   (open_closes_on_init_failure
      { openCamera := .ok (), initCamera := .ok () }
      .deviceNotFound).2.2 rfl rfl⟩

/-! ### C4 -/

/-- C4: each locally checked precondition failure --- an image size beyond
the device maxima, a binning factor outside the supported set, a stream
timeout beyond the signed 32-bit range --- returns the OutOfBounds error
kind with an empty driver-call trace (no side effect before the
failure). -/
theorem local_prevalidation_out_of_bounds
    (p : Properties) (w h b : Nat) (setRes : Except Error Unit)
    (t : Nat) (d : CameraRs.StreamDriver) (cb : Nat → Nat → Bool)
    (fuel : Nat) :
    (w > p.max_width ∨ h > p.max_height →
        CameraRs.set_image_size p w h setRes = (.error .outOfBounds, []))
      ∧ (p.bins.contains b = false →
          CameraRs.set_bin p b setRes = (.error .outOfBounds, []))
      ∧ (t > i32Max →
          CameraRs.stream (some t) d cb fuel
            = (.returned (.error .outOfBounds), [])) := by
  refine ⟨?_, ?_, ?_⟩ <;> intro h1
  · simp [CameraRs.set_image_size, h1]
  · rw [CameraRs.set_bin.eq_def, if_pos (by simpa using h1)]
  · simp [CameraRs.stream, h1]

/-- Witness for C4 at concrete violating arguments (a 100x100 device asked
for 200x100, binning 3 with supported bins [1, 2], and a timeout of
2^31). -/
theorem local_prevalidation_out_of_bounds_witness :
    CameraRs.set_image_size
        { max_width := 100, max_height := 100, bins := [1, 2] } 200 100
        (.ok ())
        = (.error .outOfBounds, [])
      ∧ CameraRs.set_bin
          { max_width := 100, max_height := 100, bins := [1, 2] } 3 (.ok ())
          = (.error .outOfBounds, [])
      ∧ CameraRs.stream (some (2 ^ 31))
          { getImageSize := .ok (100, 100), getImageFormat := .ok .POA_RAW8,
            startExposure := .ok (), getImageData := fun _ => .ok 0,
            stopExposure := .ok () }
          (fun _ _ => true) 5
          = (.returned (.error .outOfBounds), []) := by
  have h := local_prevalidation_out_of_bounds
    { max_width := 100, max_height := 100, bins := [1, 2] } 200 100 3 (.ok ())
    (2 ^ 31)
    { getImageSize := .ok (100, 100), getImageFormat := .ok .POA_RAW8,
      startExposure := .ok (), getImageData := fun _ => .ok 0,
      stopExposure := .ok () }
    (fun _ _ => true) 5
  exact ⟨h.1 (by decide), h.2.1 (by decide), h.2.2 (by decide)⟩

/-! ### C5 -/

/-- C5 counterexample: the claim also cites `camera.rs::Camera::set_roi`,
which performs no camera-state check and no exposure stop: at the concrete
input where the device is currently exposing and both geometry calls
succeed, its trace is exactly the two geometry calls --- no state query and
no stop-exposure call --- contradicting the claimed check-and-stop step. -/
theorem camera_rs_set_roi_ignores_exposing :
    CameraRs.set_roi .STATE_EXPOSING ⟨0, 0, 64, 64⟩ (.ok ()) (.ok ())
        = (.ok (), [.setImageSize 64 64, .setImageStartPos 0 0])
      ∧ (CameraRs.set_roi .STATE_EXPOSING ⟨0, 0, 64, 64⟩ (.ok ())
            (.ok ())).2.countP isStopExposure = 0
      ∧ (CameraRs.set_roi .STATE_EXPOSING ⟨0, 0, 64, 64⟩ (.ok ())
            (.ok ())).2.countP isGetCameraState = 0 :=
  ⟨rfl, rfl, rfl⟩

/-- C5 (amended to the `lib.rs` variant): `set_roi` first queries the
camera state, stopping the exposure with its own result discarded when the
device reports Exposing (and issuing no stop otherwise); it then applies
width/height and start position as two sequential driver calls in that
order, either call's failure aborting the operation with that call's
error. -/
theorem lib_set_roi_stops_exposure_first
    (d : LibRs.RoiDriver) (r : ROI) (e : Error) :
    (LibRs.observedState d = .STATE_EXPOSING →
        LibRs.set_roi_pre d = [.getCameraState, .stopExposure])
      ∧ (LibRs.observedState d ≠ .STATE_EXPOSING →
          LibRs.set_roi_pre d = [.getCameraState])
      ∧ (d.setImageSize = .error e →
          LibRs.set_roi d r
            = (.error e, LibRs.set_roi_pre d
                ++ [.setImageSize r.width r.height]))
      ∧ (d.setImageSize = .ok () → d.setImageStartPos = .error e →
          LibRs.set_roi d r
            = (.error e, LibRs.set_roi_pre d
                ++ [.setImageSize r.width r.height,
                    .setImageStartPos r.start_x r.start_y]))
      ∧ (d.setImageSize = .ok () → d.setImageStartPos = .ok () →
          LibRs.set_roi d r
            = (.ok (), LibRs.set_roi_pre d
                ++ [.setImageSize r.width r.height,
                    .setImageStartPos r.start_x r.start_y])) := by
  refine ⟨?_, ?_, ?_, ?_, ?_⟩
  · intro h1
    simp [LibRs.set_roi_pre, h1]
  · intro h1
    simp [LibRs.set_roi_pre, h1]
  · intro h1
    simp [LibRs.set_roi, h1]
  · intro h1 h2
    simp [LibRs.set_roi, h1, h2]
  · intro h1 h2
    simp [LibRs.set_roi, h1, h2]

/-- Witness for C5 at a concrete exposing device whose geometry calls
succeed, and a concrete idle device whose size call fails. -/
theorem lib_set_roi_stops_exposure_first_witness :
    LibRs.set_roi
        { getCameraState := .ok .STATE_EXPOSING, stopExposure := .ok (),
          setImageSize := .ok (), setImageStartPos := .ok () }
        ⟨8, 8, 64, 64⟩
        = (.ok (), [.getCameraState, .stopExposure, .setImageSize 64 64,
                    .setImageStartPos 8 8])
      ∧ LibRs.set_roi
          { getCameraState := .ok .STATE_OPENED, stopExposure := .ok (),
            setImageSize := .error .outOfBounds, setImageStartPos := .ok () }
          ⟨8, 8, 64, 64⟩
          = (.error .outOfBounds, [.getCameraState, .setImageSize 64 64]) := by
  have h1 := lib_set_roi_stops_exposure_first
    { getCameraState := .ok .STATE_EXPOSING, stopExposure := .ok (),
      setImageSize := .ok (), setImageStartPos := .ok () }
    ⟨8, 8, 64, 64⟩ .outOfBounds
  have h2 := lib_set_roi_stops_exposure_first
    { getCameraState := .ok .STATE_OPENED, stopExposure := .ok (),
      setImageSize := .error .outOfBounds, setImageStartPos := .ok () }
    ⟨8, 8, 64, 64⟩ .outOfBounds
  constructor
  · rw [h1.2.2.2.2 rfl rfl, h1.1 rfl]
    rfl
  · rw [h2.2.2.1 rfl, h2.2.1 (by decide)]
    rfl

/-! ### C6 -/

/-- C6 counterexample: at the concrete driver behaviour where the single
exposure starts successfully and frame retrieval fails with Timeout,
`capture` returns the retrieval error having issued only the start and
retrieval calls --- no stop-exposure call --- contradicting the claim that
the exposure is always stopped before returning. -/
theorem capture_no_stop_on_failed_retrieval :
    CameraRs.capture (.ok ()) (.error .timeout) (.ok ()) none
        = (.error .timeout, [.startExposure true, .getImageData (-1)])
      ∧ (CameraRs.capture (.ok ()) (.error .timeout)
            (.ok ()) none).2.countP isStopExposure = 0 :=
  ⟨rfl, rfl⟩

/-- C6 (amended): `capture` starts a single (non-continuous) exposure and
blocks for one frame into the caller-supplied buffer; the exposure is
stopped only on the successful-retrieval path (where a stop failure is
propagated); when retrieval fails the error is returned immediately without
stopping the exposure, and when the start itself fails no further call is
made. -/
theorem capture_stops_only_on_success
    (startRes getRes stopRes : Except Error Unit) (t : Option Int)
    (e : Error) :
    (startRes = .error e →
        CameraRs.capture startRes getRes stopRes t
          = (.error e, [.startExposure true]))
      ∧ (startRes = .ok () → getRes = .error e →
          CameraRs.capture startRes getRes stopRes t
            = (.error e, [.startExposure true, .getImageData (t.getD (-1))]))
      ∧ (startRes = .ok () → getRes = .ok () →
          CameraRs.capture startRes getRes stopRes t
            = (stopRes, [.startExposure true, .getImageData (t.getD (-1)),
                         .stopExposure])) := by
  refine ⟨?_, ?_, ?_⟩
  · intro h1
    simp [CameraRs.capture, h1]
  · intro h1 h2
    simp [CameraRs.capture, h1, h2]
  · intro h1 h2
    cases stopRes <;> simp [CameraRs.capture, h1, h2]

/-- Witness for C6 at concrete start-failure, retrieval-failure and
success behaviours. -/
theorem capture_stops_only_on_success_witness :
    CameraRs.capture (.error .exposureFailed) (.ok ()) (.ok ()) none
        = (.error .exposureFailed, [.startExposure true])
      ∧ CameraRs.capture (.ok ()) (.error .timeout) (.ok ()) (some 500)
          = (.error .timeout, [.startExposure true, .getImageData 500])
      ∧ CameraRs.capture (.ok ()) (.ok ()) (.ok ()) none
          = (.ok (), [.startExposure true, .getImageData (-1),
                      .stopExposure]) := by
  refine ⟨?_, ?_, ?_⟩
  · exact (capture_stops_only_on_success (.error .exposureFailed) (.ok ())
      (.ok ()) none .exposureFailed).1 rfl
  · exact (capture_stops_only_on_success (.ok ()) (.error .timeout)
      (.ok ()) (some 500) .timeout).2.1 rfl rfl
  · exact (capture_stops_only_on_success (.ok ()) (.ok ())
      (.ok ()) none .timeout).2.2 rfl rfl

/-! ### Config-bounds conversion lemmas -/

/-- The conversion loop panics exactly when some attribute's declared
value-type tag contradicts the statically known type of its slot. -/
theorem runConv_panicked_iff (attrs : List POAConfigAttributes) :
    ∀ acc, runConv attrs acc = .panicked ↔
      ∃ a ∈ attrs, a.valueType ≠ expectedType a.configID := by
  induction attrs with
  | nil => intro acc; simp [runConv]
  | cons a rest ih =>
    intro acc
    by_cases ha : a.valueType = expectedType a.configID
    · simp only [runConv, ConfigAttribute.fromPOA, if_pos ha]
      rw [ih]
      constructor
      · rintro ⟨x, hx, hxx⟩
        exact ⟨x, List.mem_cons_of_mem a hx, hxx⟩
      · rintro ⟨x, hx, hxx⟩
        rcases List.mem_cons.mp hx with rfl | hx2
        · exact absurd ha hxx
        · exact ⟨x, hx2, hxx⟩
    · simp only [runConv, ConfigAttribute.fromPOA, if_neg ha]
      exact iff_of_true (by trivial) ⟨a, List.mem_cons_self a rest, ha⟩

/-- When every attribute's tag matches, the conversion loop succeeds and
computes the overwrite-in-order slot map. -/
theorem runConv_ok (attrs : List POAConfigAttributes) :
    ∀ acc, (∀ a ∈ attrs, a.valueType = expectedType a.configID) →
      runConv attrs acc = .ok (slotsAfter attrs acc) := by
  induction attrs with
  | nil => intro acc h; simp [runConv, slotsAfter]
  | cons a rest ih =>
    intro acc h
    have ha : a.valueType = expectedType a.configID :=
      h a (List.mem_cons_self a rest)
    simp only [runConv, ConfigAttribute.fromPOA, if_pos ha, slotsAfter]
    exact ih _ (fun x hx => h x (List.mem_cons_of_mem a hx))

/-- A slot is populated after the loop exactly when it was already
populated or some processed attribute targets it. -/
theorem slotsAfter_isSome (attrs : List POAConfigAttributes) :
    ∀ acc k, (slotsAfter attrs acc k).isSome = true ↔
      ((acc k).isSome = true ∨ ∃ a ∈ attrs, a.configID = k) := by
  induction attrs with
  | nil => intro acc k; simp [slotsAfter]
  | cons a rest ih =>
    intro acc k
    simp only [slotsAfter]
    rw [ih]
    by_cases hk : k = a.configID
    · refine iff_of_true (Or.inl (by simp [hk])) ?_
      exact Or.inr ⟨a, List.mem_cons_self a rest, hk.symm⟩
    · rw [if_neg hk]
      constructor
      · rintro (h | ⟨x, hx, hxx⟩)
        · exact Or.inl h
        · exact Or.inr ⟨x, List.mem_cons_of_mem a hx, hxx⟩
      · rintro (h | ⟨x, hx, hxx⟩)
        · exact Or.inl h
        · rcases List.mem_cons.mp hx with rfl | hx2
          · exact absurd hxx.symm hk
          · exact Or.inr ⟨x, hx2, hxx⟩

/-- `AllConfigAttributes::from` panics exactly when some attribute's tag
contradicts its slot's statically known type, or some of the 31 required
slots is absent from the attribute list. -/
theorem fromAttrs_panicked_iff (attrs : List POAConfigAttributes) :
    AllConfigAttributes.fromAttrs attrs = .panicked ↔
      ((∃ a ∈ attrs, a.valueType ≠ expectedType a.configID)
        ∨ ∃ k ∈ allKinds, ∀ a ∈ attrs, a.configID ≠ k) := by
  by_cases hmis : ∃ a ∈ attrs, a.valueType ≠ expectedType a.configID
  · have hp : runConv attrs (fun _ => none) = .panicked :=
      (runConv_panicked_iff attrs _).mpr hmis
    simp only [AllConfigAttributes.fromAttrs, hp]
    exact iff_of_true (by trivial) (Or.inl hmis)
  · have hall : ∀ a ∈ attrs, a.valueType = expectedType a.configID := by
      intro a ha
      by_contra hne
      exact hmis ⟨a, ha, hne⟩
    have hok := runConv_ok attrs (fun _ => none) hall
    simp only [AllConfigAttributes.fromAttrs, hok]
    by_cases hfull : allKinds.all
        (fun k => (slotsAfter attrs (fun _ => none) k).isSome) = true
    · rw [if_pos hfull]
      refine iff_of_false (by simp) ?_
      rintro (h | ⟨k, hk, hnone⟩)
      · exact hmis h
      · have hs := List.all_eq_true.mp hfull k hk
        rcases (slotsAfter_isSome attrs (fun _ => none) k).mp hs with
          h1 | ⟨a, ha, hak⟩
        · simp at h1
        · exact hnone a ha hak
    · rw [if_neg hfull]
      refine iff_of_true (by trivial) (Or.inr ?_)
      have hex : ¬ ∀ k ∈ allKinds,
          (slotsAfter attrs (fun _ => none) k).isSome = true := by
        intro hcontra
        exact hfull (List.all_eq_true.mpr hcontra)
      push_neg at hex
      obtain ⟨k, hk, hks⟩ := hex
      refine ⟨k, hk, fun a ha hak => ?_⟩
      exact hks ((slotsAfter_isSome attrs (fun _ => none) k).mpr
        (Or.inr ⟨a, ha, hak⟩))

/-- The attribute loop with all per-index queries succeeding collects the
delivered attributes in ascending index order. -/
theorem configAttrLoop_ok (attrRes : Nat → Except Error POAConfigAttributes)
    (f : Nat → POAConfigAttributes) :
    ∀ n i, (∀ k, k < n → attrRes (i + k) = .ok (f (i + k))) →
      CameraRs.configAttrLoop attrRes n i
        = (.ok ((List.range n).map fun k => f (i + k)),
           (List.range n).map fun k => Event.getConfigAttributes (i + k)) := by
  intro n
  induction n with
  | zero => intro i h; simp [CameraRs.configAttrLoop]
  | succ m ih =>
    intro i h
    have h0 : attrRes i = .ok (f i) := by simpa using h 0 (by omega)
    have hrec := ih (i + 1) (fun k hk => by
      have hh := h (k + 1) (by omega)
      rwa [show i + (k + 1) = i + 1 + k by omega] at hh)
    simp only [CameraRs.configAttrLoop, h0, hrec]
    have hmap1 : (fun k => f (i + 1 + k)) = ((fun k => f (i + k)) ∘ Nat.succ) :=
      funext fun k => congrArg f (by omega)
    have hmap2 : (fun k => Event.getConfigAttributes (i + 1 + k))
        = ((fun k => Event.getConfigAttributes (i + k)) ∘ Nat.succ) :=
      funext fun k => congrArg _ (by omega)
    rw [hmap1, hmap2, List.range_succ_eq_map, List.map_cons, List.map_map,
      List.map_cons, List.map_map, Nat.add_zero]

/-- The attribute loop panics as soon as any per-index query in range
reports an error. -/
theorem configAttrLoop_panicked
    (attrRes : Nat → Except Error POAConfigAttributes) :
    ∀ n i, (∃ k, k < n ∧ isErr (attrRes (i + k)) = true) →
      (CameraRs.configAttrLoop attrRes n i).1 = .panicked := by
  intro n
  induction n with
  | zero =>
    rintro i ⟨k, hk, -⟩
    omega
  | succ m ih =>
    rintro i ⟨k, hk, he⟩
    cases hcase : attrRes i with
    | error e => simp [CameraRs.configAttrLoop, hcase]
    | ok a =>
      have hk0 : k ≠ 0 := by
        intro h0
        subst h0
        rw [Nat.add_zero, hcase] at he
        simp [isErr] at he
      obtain ⟨k2, rfl⟩ : ∃ k2, k = k2 + 1 := ⟨k - 1, by omega⟩
      have hrec := ih (i + 1)
        ⟨k2, by omega, by rwa [show i + (k2 + 1) = i + 1 + k2 by omega] at he⟩
      simp only [CameraRs.configAttrLoop, hcase]
      rcases hp : CameraRs.configAttrLoop attrRes m (i + 1) with ⟨r, evs⟩
      rw [hp] at hrec
      simp only at hrec
      subst hrec
      simp

/-! ### C2 -/

/-- C2 counterexample: at concrete driver behaviours that report an error,
the `camera.rs` getters panic rather than return a typed error: `bin`
panics when `POAGetImageBin` reports OperationFailed, and
`create_image_buffer` panics when `POAGetImageSize` reports
OperationFailed --- contradicting the claim that these operations never
panic on a driver-reported error. -/
theorem bin_panics_on_driver_error :
    CameraRs.bin
        { getImageStartPos := .ok (0, 0), getImageSize := .ok (100, 100),
          getImageBin := .error .operationFailed,
          getImageFormat := .ok .POA_RAW8 }
        = (.panicked, [.getImageBin])
      ∧ CameraRs.create_image_buffer
          { getImageStartPos := .ok (0, 0),
            getImageSize := .error .operationFailed,
            getImageBin := .ok 1, getImageFormat := .ok .POA_RAW8 }
          = (.panicked, [.getImageSize]) :=
  ⟨rfl, rfl⟩

/-- C2 (amended): beyond the sanctioned classes (a) wrong-tag ConfigValue
extraction and (b) a config-bounds decode whose declared value-type tag
contradicts the statically known type, the safe layer has two further
panic classes: (c) the `safe_error`-wrapped query operations of
`camera.rs` --- `config_bounds`, `roi`, `image_size`, `image_start_pos`,
`image_format`, `bin`, and `create_image_buffer` through them --- panic on
any driver-reported error instead of returning it (`image_format` also on
the `POA_END` sentinel), and (d) the config-bounds conversion
(`AllConfigAttributes::from`) panics when any of the 31 required slots is
absent from the device's reported list, even with every driver call
succeeding; none of these operations ever returns a typed error.  The
conjuncts characterise: `safe_error` panicking exactly on a non-success
status; each getter panicking exactly when one of its driver calls fails;
`config_bounds` panicking on a failed count or attribute query and
otherwise handing the collected attributes, in ascending index order, to
the conversion; and the conversion panicking exactly on a tag mismatch
((b)) or a missing slot ((d)). -/
theorem safe_error_getters_panic_iff (d : CameraRs.Driver)
    (countRes : Except Error Nat)
    (attrRes : Nat → Except Error POAConfigAttributes)
    (n : Nat) (f : Nat → POAConfigAttributes) :
    (∀ st : Except Error Unit, safe_error st = .panicked ↔ isErr st = true)
      ∧ ((CameraRs.bin d).1 = .panicked ↔ isErr d.getImageBin = true)
      ∧ ((CameraRs.image_size d).1 = .panicked ↔ isErr d.getImageSize = true)
      ∧ ((CameraRs.image_start_pos d).1 = .panicked ↔
          isErr d.getImageStartPos = true)
      ∧ ((CameraRs.roi d).1 = .panicked ↔
          (isErr d.getImageStartPos = true ∨ isErr d.getImageSize = true))
      ∧ ((CameraRs.image_format d).1 = .panicked ↔
          (isErr d.getImageFormat = true ∨ d.getImageFormat = .ok .POA_END))
      ∧ ((CameraRs.create_image_buffer d).1 = .panicked ↔
          (isErr d.getImageSize = true ∨ isErr d.getImageFormat = true
            ∨ d.getImageFormat = .ok .POA_END))
      ∧ (isErr countRes = true →
          (CameraRs.config_bounds countRes attrRes).1 = .panicked)
      ∧ (countRes = .ok n → (∃ i, i < n ∧ isErr (attrRes i) = true) →
          (CameraRs.config_bounds countRes attrRes).1 = .panicked)
      ∧ (countRes = .ok n → (∀ i, i < n → attrRes i = .ok (f i)) →
          CameraRs.config_bounds countRes attrRes
            = (AllConfigAttributes.fromAttrs ((List.range n).map f),
               .getConfigsCount
                 :: (List.range n).map Event.getConfigAttributes))
      ∧ (∀ attrs : List POAConfigAttributes,
          AllConfigAttributes.fromAttrs attrs = .panicked ↔
            ((∃ a ∈ attrs, a.valueType ≠ expectedType a.configID)
              ∨ ∃ k ∈ allKinds, ∀ a ∈ attrs, a.configID ≠ k)) := by
  obtain ⟨sp, sz, bn, fm⟩ := d
  refine ⟨?_, ?_, ?_, ?_, ?_, ?_, ?_, ?_, ?_, ?_, fun attrs =>
    fromAttrs_panicked_iff attrs⟩
  · intro st
    cases st <;> simp [safe_error, isErr]
  · cases bn <;> simp [CameraRs.bin, isErr]
  · cases sz <;> simp [CameraRs.image_size, isErr]
  · cases sp <;> simp [CameraRs.image_start_pos, isErr]
  · rcases sp with e | ⟨sx, sy⟩ <;> rcases sz with e2 | ⟨w, h⟩ <;>
      simp [CameraRs.roi, isErr]
  · rcases fm with e | fv
    · simp [CameraRs.image_format, isErr]
    · cases fv <;> simp [CameraRs.image_format, isErr, ImageFormat.fromPOA]
  · rcases sz with e2 | ⟨w, h⟩
    · simp [CameraRs.create_image_buffer, CameraRs.image_size, isErr]
    · rcases fm with e | fv
      · simp [CameraRs.create_image_buffer, CameraRs.image_size,
          CameraRs.image_format, isErr]
      · cases fv <;> simp [CameraRs.create_image_buffer, CameraRs.image_size,
          CameraRs.image_format, isErr, ImageFormat.fromPOA]
  · intro hce
    cases hc : countRes with
    | error e => simp [CameraRs.config_bounds, hc]
    | ok m =>
      rw [hc] at hce
      simp [isErr] at hce
  · rintro rfl ⟨i, hi, hie⟩
    have hp := configAttrLoop_panicked attrRes n 0
      ⟨i, hi, by simpa using hie⟩
    simp only [CameraRs.config_bounds]
    rcases hl : CameraRs.configAttrLoop attrRes n 0 with ⟨r, evs⟩
    rw [hl] at hp
    simp only at hp
    subst hp
    simp
  · rintro rfl hats
    have hl := configAttrLoop_ok attrRes f n 0
      (fun k hk => by simpa using hats k hk)
    simp only [CameraRs.config_bounds, hl]
    simp

/-- Witness for C2 at concrete driver behaviours: a failing count query, a
failing attribute query at index 1 of 2, and a fully successful 1-slot
enumeration handed to the conversion. -/
theorem safe_error_getters_panic_iff_witness :
    (CameraRs.config_bounds (.error .operationFailed)
        (fun _ => .ok { configID := .Exposure, valueType := .VAL_INT,
                        payload := 0 })).1 = .panicked
      ∧ (CameraRs.config_bounds (.ok 2)
          (fun i => if i = 1 then .error .operationFailed
            else .ok { configID := .Exposure, valueType := .VAL_INT,
                       payload := 0 })).1 = .panicked
      ∧ CameraRs.config_bounds (.ok 1)
          (fun _ => .ok { configID := .Exposure, valueType := .VAL_INT,
                          payload := 0 })
          = (AllConfigAttributes.fromAttrs
              ((List.range 1).map fun _ =>
                { configID := .Exposure, valueType := .VAL_INT,
                  payload := 0 }),
             .getConfigsCount
               :: (List.range 1).map Event.getConfigAttributes) := by
  refine ⟨?_, ?_, ?_⟩
  · exact (safe_error_getters_panic_iff
      { getImageStartPos := .ok (0, 0), getImageSize := .ok (1, 1),
        getImageBin := .ok 1, getImageFormat := .ok .POA_RAW8 }
      (.error .operationFailed)
      (fun _ => .ok { configID := .Exposure, valueType := .VAL_INT,
                      payload := 0 })
      0
      (fun _ => { configID := .Exposure, valueType := .VAL_INT,
                  payload := 0 })).2.2.2.2.2.2.2.1 rfl
  · exact (safe_error_getters_panic_iff
      { getImageStartPos := .ok (0, 0), getImageSize := .ok (1, 1),
        getImageBin := .ok 1, getImageFormat := .ok .POA_RAW8 }
      (.ok 2)
      (fun i => if i = 1 then .error .operationFailed
        else .ok { configID := .Exposure, valueType := .VAL_INT,
                   payload := 0 })
      2
      (fun _ => { configID := .Exposure, valueType := .VAL_INT,
                  payload := 0 })).2.2.2.2.2.2.2.2.1 rfl
      ⟨1, by omega, rfl⟩
  · exact (safe_error_getters_panic_iff
      { getImageStartPos := .ok (0, 0), getImageSize := .ok (1, 1),
        getImageBin := .ok 1, getImageFormat := .ok .POA_RAW8 }
      (.ok 1)
      (fun _ => .ok { configID := .Exposure, valueType := .VAL_INT,
                      payload := 0 })
      1
      (fun _ => { configID := .Exposure, valueType := .VAL_INT,
                  payload := 0 })).2.2.2.2.2.2.2.2.2.1 rfl
      (fun i hi => rfl)

/-! ### Streaming-loop lemmas -/

/-- When the first `N` retrievals (from iteration `i`) succeed with the
consumer continuing, and the next retrieval fails, the loop returns the
error with the `loopTrace` call sequence. -/
theorem streamLoop_error_run (d : CameraRs.StreamDriver)
    (cb : Nat → Nat → Bool) (t : Int) (f : Nat → Nat) (e : Error) :
    ∀ (N i fuel : Nat),
      (∀ k, k < N → d.getImageData (i + k) = .ok (f (i + k))) →
      d.getImageData (i + N) = .error e →
      (∀ k, k < N → cb (i + k) (f (i + k)) = true) →
      N < fuel →
      CameraRs.streamLoop d cb t fuel i
        = (.returned (.error e), CameraRs.loopTrace t f N i) := by
  intro N
  induction N with
  | zero =>
    intro i fuel hok herr hcb hfuel
    obtain ⟨m, rfl⟩ : ∃ m, fuel = m + 1 := ⟨fuel - 1, by omega⟩
    have h0 : d.getImageData i = .error e := by simpa using herr
    simp [CameraRs.streamLoop, h0, CameraRs.loopTrace]
  | succ n ih =>
    intro i fuel hok herr hcb hfuel
    obtain ⟨m, rfl⟩ : ∃ m, fuel = m + 1 := ⟨fuel - 1, by omega⟩
    have h0 : d.getImageData i = .ok (f i) := by simpa using hok 0 (by omega)
    have hc0 : cb i (f i) = true := by simpa using hcb 0 (by omega)
    have hrec := ih (i + 1) m
      (fun k hk => by
        have h := hok (k + 1) (by omega)
        rwa [show i + (k + 1) = i + 1 + k by omega] at h)
      (by
        have h := herr
        rwa [show i + (n + 1) = i + 1 + n by omega] at h)
      (fun k hk => by
        have h := hcb (k + 1) (by omega)
        rwa [show i + (k + 1) = i + 1 + k by omega] at h)
      (by omega)
    simp [CameraRs.streamLoop, h0, hc0, hrec, CameraRs.loopTrace]

/-- When the first `M + 1` retrievals (from iteration `i`) succeed and the
consumer signals stop on the last one, the loop returns success with the
`loopTraceStop` call sequence. -/
theorem streamLoop_stop_run (d : CameraRs.StreamDriver)
    (cb : Nat → Nat → Bool) (t : Int) (f : Nat → Nat) :
    ∀ (M i fuel : Nat),
      (∀ k, k ≤ M → d.getImageData (i + k) = .ok (f (i + k))) →
      (∀ k, k < M → cb (i + k) (f (i + k)) = true) →
      cb (i + M) (f (i + M)) = false →
      M < fuel →
      CameraRs.streamLoop d cb t fuel i
        = (.returned (.ok ()), CameraRs.loopTraceStop t f M i) := by
  intro M
  induction M with
  | zero =>
    intro i fuel hok hcb hstop hfuel
    obtain ⟨m, rfl⟩ : ∃ m, fuel = m + 1 := ⟨fuel - 1, by omega⟩
    have h0 : d.getImageData i = .ok (f i) := by simpa using hok 0 (by omega)
    have hc0 : cb i (f i) = false := by simpa using hstop
    simp [CameraRs.streamLoop, h0, hc0, CameraRs.loopTraceStop]
  | succ n ih =>
    intro i fuel hok hcb hstop hfuel
    obtain ⟨m, rfl⟩ : ∃ m, fuel = m + 1 := ⟨fuel - 1, by omega⟩
    have h0 : d.getImageData i = .ok (f i) := by simpa using hok 0 (by omega)
    have hc0 : cb i (f i) = true := by simpa using hcb 0 (by omega)
    have hrec := ih (i + 1) m
      (fun k hk => by
        have h := hok (k + 1) (by omega)
        rwa [show i + (k + 1) = i + 1 + k by omega] at h)
      (fun k hk => by
        have h := hcb (k + 1) (by omega)
        rwa [show i + (k + 1) = i + 1 + k by omega] at h)
      (by
        have h := hstop
        rwa [show i + (n + 1) = i + 1 + n by omega] at h)
      (by omega)
    simp [CameraRs.streamLoop, h0, hc0, hrec, CameraRs.loopTraceStop]

/-- Unfolding of `stream` when the timeout is in range, the buffer-sizing
getters succeed with a real format, and the continuous exposure starts
successfully. -/
theorem stream_unfold_ok (timeout : Option Nat) (d : CameraRs.StreamDriver)
    (cb : Nat → Nat → Bool) (fuel : Nat) (wh : Int × Int)
    (fr : POAImgFormat) (fmt : ImageFormat)
    (htimeout : ∀ t, timeout = some t → t ≤ i32Max)
    (hsize : d.getImageSize = .ok wh)
    (hfr : d.getImageFormat = .ok fr)
    (hfmt : ImageFormat.fromPOA fr = .ok fmt)
    (hstart : d.startExposure = .ok ()) :
    CameraRs.stream timeout d cb fuel
      = ((CameraRs.streamLoop d cb (CameraRs.timeoutArg timeout) fuel 0).1,
         [.getImageSize, .getImageFormat, .startExposure false]
           ++ (CameraRs.streamLoop d cb (CameraRs.timeoutArg timeout)
                fuel 0).2) := by
  have hguard : (timeout.map fun t => decide (t > i32Max)).getD false
      = false := by
    cases timeout with
    | none => rfl
    | some t =>
      show decide (t > i32Max) = false
      exact decide_eq_false (Nat.not_lt.mpr (htimeout t rfl))
  simp [CameraRs.stream, hguard, hsize, hfr, hfmt, hstart]

/-- The error-run trace contains exactly `N` consumer invocations. -/
theorem loopTrace_countP_consumer (t : Int) (f : Nat → Nat) :
    ∀ N i, (CameraRs.loopTrace t f N i).countP isConsumerCall = N := by
  intro N
  induction N with
  | zero => intro i; simp [CameraRs.loopTrace, isConsumerCall]
  | succ n ih =>
    intro i
    simp [CameraRs.loopTrace, List.countP_cons, isConsumerCall, ih (i + 1)]

/-- The error-run trace contains exactly one exposure stop. -/
theorem loopTrace_countP_stop (t : Int) (f : Nat → Nat) :
    ∀ N i, (CameraRs.loopTrace t f N i).countP isStopExposure = 1 := by
  intro N
  induction N with
  | zero => intro i; simp [CameraRs.loopTrace, isStopExposure]
  | succ n ih =>
    intro i
    simp [CameraRs.loopTrace, List.countP_cons, isStopExposure, ih (i + 1)]

/-- The error-run trace contains no exposure start. -/
theorem loopTrace_countP_start (t : Int) (f : Nat → Nat) :
    ∀ N i, (CameraRs.loopTrace t f N i).countP isStartExposure = 0 := by
  intro N
  induction N with
  | zero => intro i; simp [CameraRs.loopTrace, isStartExposure]
  | succ n ih =>
    intro i
    simp [CameraRs.loopTrace, List.countP_cons, isStartExposure, ih (i + 1)]

/-- The error-run trace hands the consumer exactly the frames the driver
delivered, in order. -/
theorem loopTrace_consumedValues (t : Int) (f : Nat → Nat) :
    ∀ N i, consumedValues (CameraRs.loopTrace t f N i)
      = (List.range N).map (fun k => f (i + k)) := by
  intro N
  induction N with
  | zero => intro i; simp [CameraRs.loopTrace, consumedValues]
  | succ n ih =>
    intro i
    have hih := ih (i + 1)
    simp only [CameraRs.loopTrace, consumedValues, List.filterMap_cons]
      at hih ⊢
    rw [hih]
    have hmap : (fun k => f (i + 1 + k)) = ((fun k => f (i + k)) ∘ Nat.succ) :=
      funext fun k => congrArg f (by omega)
    rw [hmap, List.range_succ_eq_map, List.map_cons, List.map_map,
      Nat.add_zero]

/-- The consumer-stop trace contains exactly `M + 1` consumer
invocations. -/
theorem loopTraceStop_countP_consumer (t : Int) (f : Nat → Nat) :
    ∀ M i, (CameraRs.loopTraceStop t f M i).countP isConsumerCall
      = M + 1 := by
  intro M
  induction M with
  | zero => intro i; simp [CameraRs.loopTraceStop, isConsumerCall]
  | succ n ih =>
    intro i
    simp [CameraRs.loopTraceStop, List.countP_cons, isConsumerCall,
      ih (i + 1)]

/-- The consumer-stop trace contains no exposure stop. -/
theorem loopTraceStop_countP_stop (t : Int) (f : Nat → Nat) :
    ∀ M i, (CameraRs.loopTraceStop t f M i).countP isStopExposure = 0 := by
  intro M
  induction M with
  | zero => intro i; simp [CameraRs.loopTraceStop, isStopExposure]
  | succ n ih =>
    intro i
    simp [CameraRs.loopTraceStop, List.countP_cons, isStopExposure,
      ih (i + 1)]

/-- The exposure-state fold over the error-run trace: its final stop call
clears the state exactly when the driver stop succeeds. -/
theorem expFold_loopTrace (sr st : Except Error Unit) (t : Int)
    (f : Nat → Nat) :
    ∀ N i b, (CameraRs.loopTrace t f N i).foldl (CameraRs.expStep sr st) b
      = if isErr st then b else false := by
  intro N
  induction N with
  | zero =>
    intro i b
    cases hst : isErr st <;>
      simp [CameraRs.loopTrace, CameraRs.expStep, hst]
  | succ n ih =>
    intro i b
    simp [CameraRs.loopTrace, CameraRs.expStep, ih (i + 1)]

/-- The exposure-state fold over the consumer-stop trace: no start or stop
calls occur, so the state is unchanged. -/
theorem expFold_loopTraceStop (sr st : Except Error Unit) (t : Int)
    (f : Nat → Nat) :
    ∀ M i b, (CameraRs.loopTraceStop t f M i).foldl (CameraRs.expStep sr st) b
      = b := by
  intro M
  induction M with
  | zero => intro i b; simp [CameraRs.loopTraceStop, CameraRs.expStep]
  | succ n ih =>
    intro i b
    simp [CameraRs.loopTraceStop, CameraRs.expStep, ih (i + 1)]

/-! ### C1 -/

/-- C1: in a streaming run whose continuous exposure starts successfully,
where the first `N` retrievals succeed (delivering frames `f k`) and
retrieval `N + 1` fails while the consumer keeps continuing: the trace is
the buffer-sizing getters, one continuous exposure start before the loop,
then `N` retrieval/consumer rounds followed by the failing retrieval and
the ignored best-effort stop; the exposure start and the stop each occur
exactly once, the consumer is invoked exactly `N` times receiving exactly
the freshly delivered frames in order, and `stream` returns the retrieval
error. -/
theorem stream_error_propagation
    (timeout : Option Nat) (d : CameraRs.StreamDriver) (cb : Nat → Nat → Bool)
    (f : Nat → Nat) (N : Nat) (e : Error) (fuel : Nat)
    (wh : Int × Int) (fr : POAImgFormat) (fmt : ImageFormat)
    (htimeout : ∀ t, timeout = some t → t ≤ i32Max)
    (hsize : d.getImageSize = .ok wh)
    (hfr : d.getImageFormat = .ok fr)
    (hfmt : ImageFormat.fromPOA fr = .ok fmt)
    (hstart : d.startExposure = .ok ())
    (hget : ∀ k, k < N → d.getImageData k = .ok (f k))
    (hlast : d.getImageData N = .error e)
    (hcb : ∀ k, k < N → cb k (f k) = true)
    (hfuel : N < fuel) :
    CameraRs.stream timeout d cb fuel
        = (.returned (.error e),
           [.getImageSize, .getImageFormat, .startExposure false]
             ++ CameraRs.loopTrace (CameraRs.timeoutArg timeout) f N 0)
      ∧ (CameraRs.stream timeout d cb fuel).2.countP isStartExposure = 1
      ∧ (CameraRs.stream timeout d cb fuel).2.countP isConsumerCall = N
      ∧ consumedValues (CameraRs.stream timeout d cb fuel).2
          = (List.range N).map f
      ∧ (CameraRs.stream timeout d cb fuel).2.countP isStopExposure = 1 := by
  have hloop := streamLoop_error_run d cb (CameraRs.timeoutArg timeout) f e
    N 0 fuel
    (fun k hk => by simpa using hget k hk)
    (by simpa using hlast)
    (fun k hk => by simpa using hcb k hk)
    hfuel
  have htrace : CameraRs.stream timeout d cb fuel
      = (.returned (.error e),
         [.getImageSize, .getImageFormat, .startExposure false]
           ++ CameraRs.loopTrace (CameraRs.timeoutArg timeout) f N 0) := by
    rw [stream_unfold_ok timeout d cb fuel wh fr fmt htimeout hsize hfr hfmt
      hstart, hloop]
  refine ⟨htrace, ?_, ?_, ?_, ?_⟩
  · rw [htrace]
    simp [List.countP_append, loopTrace_countP_start, isStartExposure]
  · rw [htrace]
    simp [List.countP_append, loopTrace_countP_consumer, isConsumerCall]
  · rw [htrace]
    have h1 := loopTrace_consumedValues (CameraRs.timeoutArg timeout) f N 0
    have h2 : (List.range N).map (fun k => f (0 + k)) = (List.range N).map f := by
      simp
    simp only [consumedValues] at h1 ⊢
    simp only [List.filterMap_append, List.filterMap_cons, List.filterMap_nil]
    rw [h1, h2]
    rfl
  · rw [htrace]
    simp [List.countP_append, loopTrace_countP_stop, isStopExposure]

/-- Witness for C1: the spec's streaming scenario, a driver delivering 3
frames then a Timeout error on the 4th retrieval, with an
always-continue consumer. -/
theorem stream_error_propagation_witness :
    CameraRs.stream (some 500)
        { getImageSize := .ok (100, 100), getImageFormat := .ok .POA_RAW8,
          startExposure := .ok (),
          getImageData := fun i => if i < 3 then .ok i else .error .timeout,
          stopExposure := .ok () }
        (fun _ _ => true) 4
        = (.returned (.error .timeout),
           [.getImageSize, .getImageFormat, .startExposure false,
            .getImageData 500, .consumerCall 0,
            .getImageData 500, .consumerCall 1,
            .getImageData 500, .consumerCall 2,
            .getImageData 500, .stopExposure]) := by
  have h := stream_error_propagation (some 500)
    { getImageSize := .ok (100, 100), getImageFormat := .ok .POA_RAW8,
      startExposure := .ok (),
      getImageData := fun i => if i < 3 then .ok i else .error .timeout,
      stopExposure := .ok () }
    (fun _ _ => true) (fun k => k) 3 .timeout 4 (100, 100) .POA_RAW8 .RAW8
    (fun t ht => by rw [← Option.some.inj ht]; decide)
    rfl rfl rfl rfl
    (fun k hk => by simp [hk])
    (by rfl)
    (fun k hk => rfl)
    (by omega)
  exact h.1

/-! ### C8 -/

/-- C8 counterexample: at the concrete streaming run where every retrieval
succeeds and the consumer signals stop on the first frame, `stream`
returns success with a trace containing no exposure stop, and the device
is still exposing when `stream` returns --- contradicting the claim that a
normal consumer stop returns the engine to the Idle state. -/
theorem stream_consumer_stop_leaves_exposure_running :
    CameraRs.stream none
        { getImageSize := .ok (100, 100), getImageFormat := .ok .POA_RAW8,
          startExposure := .ok (), getImageData := fun _ => .ok 7,
          stopExposure := .ok () }
        (fun _ _ => false) 5
        = (.returned (.ok ()),
           [.getImageSize, .getImageFormat, .startExposure false,
            .getImageData (-1), .consumerCall 7])
      ∧ ([Event.getImageSize, Event.getImageFormat, Event.startExposure false,
          Event.getImageData (-1), Event.consumerCall 7].countP isStopExposure
          = 0)
      ∧ CameraRs.exposingAfter (.ok ()) (.ok ())
          [.getImageSize, .getImageFormat, .startExposure false,
           .getImageData (-1), .consumerCall 7] = true := by
  refine ⟨by decide, by decide, by decide⟩

/-- C8 (amended): the streaming engine returns to Idle only on the
error-stop path: when a retrieval fails, the loop issues the single
best-effort stop, so the device is left exposing exactly when that stop
call itself fails; when the consumer signals stop after a successful
retrieval, the loop exits with success without issuing any stop, and the
device remains in continuous exposure when `stream` returns. -/
theorem stream_idle_only_after_error_stop
    (timeout : Option Nat) (d : CameraRs.StreamDriver) (cb : Nat → Nat → Bool)
    (f : Nat → Nat) (e : Error) (N M fuel : Nat)
    (wh : Int × Int) (fr : POAImgFormat) (fmt : ImageFormat)
    (htimeout : ∀ t, timeout = some t → t ≤ i32Max)
    (hsize : d.getImageSize = .ok wh)
    (hfr : d.getImageFormat = .ok fr)
    (hfmt : ImageFormat.fromPOA fr = .ok fmt)
    (hstart : d.startExposure = .ok ()) :
    ((∀ k, k < N → d.getImageData k = .ok (f k)) →
      d.getImageData N = .error e →
      (∀ k, k < N → cb k (f k) = true) →
      N < fuel →
        (CameraRs.stream timeout d cb fuel).2.countP isStopExposure = 1
          ∧ CameraRs.exposingAfter d.startExposure d.stopExposure
              (CameraRs.stream timeout d cb fuel).2 = isErr d.stopExposure)
      ∧ ((∀ k, k ≤ M → d.getImageData k = .ok (f k)) →
        (∀ k, k < M → cb k (f k) = true) →
        cb M (f M) = false →
        M < fuel →
          (CameraRs.stream timeout d cb fuel).1 = .returned (.ok ())
            ∧ (CameraRs.stream timeout d cb fuel).2.countP isStopExposure = 0
            ∧ CameraRs.exposingAfter d.startExposure d.stopExposure
                (CameraRs.stream timeout d cb fuel).2 = true) := by
  have hmain := stream_unfold_ok timeout d cb fuel wh fr fmt htimeout hsize
    hfr hfmt hstart
  constructor
  · intro hget hlast hcb hfuel
    have hloop := streamLoop_error_run d cb (CameraRs.timeoutArg timeout) f e
      N 0 fuel
      (fun k hk => by simpa using hget k hk)
      (by simpa using hlast)
      (fun k hk => by simpa using hcb k hk)
      hfuel
    rw [hmain, hloop]
    constructor
    · simp [List.countP_append, loopTrace_countP_stop, isStopExposure]
    · simp only [CameraRs.exposingAfter, List.foldl_append, List.foldl_cons,
        List.foldl_nil, CameraRs.expStep, hstart, isErr]
      rw [expFold_loopTrace]
      cases hst : d.stopExposure <;> simp [isErr, hst]
  · intro hget hcb hstop hfuel
    have hloop := streamLoop_stop_run d cb (CameraRs.timeoutArg timeout) f
      M 0 fuel
      (fun k hk => by simpa using hget k hk)
      (fun k hk => by simpa using hcb k hk)
      (by simpa using hstop)
      hfuel
    rw [hmain, hloop]
    refine ⟨rfl, ?_, ?_⟩
    · simp [List.countP_append, loopTraceStop_countP_stop, isStopExposure]
    · simp only [CameraRs.exposingAfter, List.foldl_append, List.foldl_cons,
        List.foldl_nil, CameraRs.expStep, hstart, isErr]
      rw [expFold_loopTraceStop]
      simp

/-- Witness for C8: a concrete error-stop run (3 frames then Timeout, stop
succeeding, ending Idle) and a concrete consumer-stop run (stop on the
first frame, no stop call, still exposing). -/
theorem stream_idle_only_after_error_stop_witness :
    ((CameraRs.stream (some 500)
        { getImageSize := .ok (100, 100), getImageFormat := .ok .POA_RAW8,
          startExposure := .ok (),
          getImageData := fun i => if i < 3 then .ok i else .error .timeout,
          stopExposure := .ok () }
        (fun _ _ => true) 4).2.countP isStopExposure = 1
      ∧ CameraRs.exposingAfter (Except.ok ()) (Except.ok ())
          (CameraRs.stream (some 500)
            { getImageSize := .ok (100, 100), getImageFormat := .ok .POA_RAW8,
              startExposure := .ok (),
              getImageData := fun i => if i < 3 then .ok i
                else .error .timeout,
              stopExposure := .ok () }
            (fun _ _ => true) 4).2 = false)
      ∧ ((CameraRs.stream none
          { getImageSize := .ok (100, 100), getImageFormat := .ok .POA_RAW8,
            startExposure := .ok (), getImageData := fun _ => .ok 7,
            stopExposure := .ok () }
          (fun _ _ => false) 5).1 = .returned (.ok ())
        ∧ (CameraRs.stream none
            { getImageSize := .ok (100, 100), getImageFormat := .ok .POA_RAW8,
              startExposure := .ok (), getImageData := fun _ => .ok 7,
              stopExposure := .ok () }
            (fun _ _ => false) 5).2.countP isStopExposure = 0
        ∧ CameraRs.exposingAfter (Except.ok ()) (Except.ok ())
            (CameraRs.stream none
              { getImageSize := .ok (100, 100),
                getImageFormat := .ok .POA_RAW8,
                startExposure := .ok (), getImageData := fun _ => .ok 7,
                stopExposure := .ok () }
              (fun _ _ => false) 5).2 = true) := by
  constructor
  · have h := stream_idle_only_after_error_stop (some 500)
      { getImageSize := .ok (100, 100), getImageFormat := .ok .POA_RAW8,
        startExposure := .ok (),
        getImageData := fun i => if i < 3 then .ok i else .error .timeout,
        stopExposure := .ok () }
      (fun _ _ => true) (fun k => k) .timeout 3 0 4 (100, 100) .POA_RAW8 .RAW8
      (fun t ht => by rw [← Option.some.inj ht]; decide)
      rfl rfl rfl rfl
    exact h.1 (fun k hk => by simp [hk]) (by rfl) (fun k hk => rfl) (by omega)
  · have h := stream_idle_only_after_error_stop none
      { getImageSize := .ok (100, 100), getImageFormat := .ok .POA_RAW8,
        startExposure := .ok (), getImageData := fun _ => .ok 7,
        stopExposure := .ok () }
      (fun _ _ => false) (fun _ => 7) .timeout 0 0 5 (100, 100) .POA_RAW8 .RAW8
      (fun t ht => by cases ht)
      rfl rfl rfl rfl
    exact h.2 (fun k hk => rfl) (fun k hk => by omega) rfl (by omega)
